import Mathlib

/-!
Verification development for the wp-bookstore assignment scripts:
`generate_fake_books.py` (synthetic CSV generator) and
`auto-import-books.py` (batch CSV importer posting to an HTTP endpoint).

The Python code is shallowly embedded: CSV files are lists of rows
(a row is a list of cell strings, which is exactly the view the `csv`
module round-trips), the process-global Mersenne-Twister RNG is an
abstract state-threaded oracle bundled with the documented contract of
`random.random()` (a value in [0,1)), `html.unescape` is an abstract
string function `u` (no claim depends on entity decoding), and the
`faker` library is an oracle supplying the drawn words and names.
Python's `str.isdigit` is modelled over ASCII digits.
-/

namespace Bookstore

/-- One character of Python whitespace: exactly the code points
`str.strip()` (equivalently `str.isspace()`) treats as whitespace in
CPython — U+0009..U+000D, U+001C..U+001F, U+0020, U+0085, U+00A0,
U+1680, U+2000..U+200A, U+2028, U+2029, U+202F, U+205F, U+3000. -/
def ws (c : Char) : Bool :=
  decide ((9 ≤ c.toNat ∧ c.toNat ≤ 13) ∨ (28 ≤ c.toNat ∧ c.toNat ≤ 32) ∨
    c.toNat = 133 ∨ c.toNat = 160 ∨ c.toNat = 5760 ∨
    (8192 ≤ c.toNat ∧ c.toNat ≤ 8202) ∨ c.toNat = 8232 ∨ c.toNat = 8233 ∨
    c.toNat = 8239 ∨ c.toNat = 8287 ∨ c.toNat = 12288)

/-- Trim whitespace from both ends of a character list. -/
def trimChars (l : List Char) : List Char :=
  ((l.dropWhile ws).reverse.dropWhile ws).reverse

/-- Model of Python `str.strip()`. -/
def pyStrip (s : String) : String := String.mk (trimChars s.data)

/-- The Unicode character classes behind `str.isdigit()` and `int()`,
kept abstract (the full tables are Unicode data, not program text):
`isdigit c` is CPython's per-character isdigit (true for Numeric_Type
Digit or Decimal, e.g. both '3' and the superscript '²'); `decVal c` is
the decimal value `int()` assigns to `c`, `some v` exactly for the
category-Nd characters (so `int` raises on isdigit-true characters with
`decVal = none`, such as '²').  The interface pins the classes on ASCII
and carries the two facts true of the real tables: every Nd character is
isdigit, and decimal values are below 10. -/
structure CharClasses where
  isdigit : Char → Bool
  decVal : Char → Option ℕ
  ascii_isdigit : ∀ c : Char, c.toNat < 128 →
    (isdigit c = true ↔ (48 ≤ c.toNat ∧ c.toNat ≤ 57))
  ascii_decVal : ∀ c : Char, c.toNat < 128 →
    decVal c = if 48 ≤ c.toNat ∧ c.toNat ≤ 57 then some (c.toNat - 48) else none
  decVal_isdigit : ∀ c v, decVal c = some v → isdigit c = true
  decVal_lt : ∀ c v, decVal c = some v → v < 10

/-- Model of Python `str.isdigit()`: non-empty and all characters
isdigit (`"".isdigit()` is `False`). -/
def pyIsDigit (C : CharClasses) (s : String) : Bool :=
  !s.data.isEmpty && s.data.all C.isdigit

/-- `int(s)` on a string `s.isdigit()` accepted: it succeeds exactly when
every character has a decimal value (category Nd) and then composes them
in base 10; on an isdigit-true string with a valueless character it
raises ValueError, modelled as `none`. -/
def pyIntDigits (C : CharClasses) (s : String) : Option ℕ :=
  if s.data.all (fun c => (C.decVal c).isSome) then
    some (s.data.foldl (fun a c => 10 * a + (C.decVal c).getD 0) 0)
  else none

/-- Numeric value of an ASCII-digit-character list (used by the
generator-side `int(sys.argv[1])` model). -/
def digitsToNat (l : List Char) : ℕ := l.foldl (fun a c => 10 * a + (c.toNat - 48)) 0

/-- Abstract model of the `random` module's global generator, threaded as a
state in `ℕ`.  `seed` is `random.seed(isbn)` (the new state is a function of
the seed string alone); `randomQ` is `random.random()` together with its
contract: the value lies in `[0, 1)`. -/
structure RandomLib where
  seed : String → ℕ
  randomQ : ℕ → ℚ × ℕ
  random_nonneg : ∀ st, 0 ≤ (randomQ st).1
  random_lt_one : ∀ st, (randomQ st).1 < 1

/-- CPython's `random.uniform(a, b)`, which returns `a + (b - a) * random()`. -/
def uniformQ (R : RandomLib) (st : ℕ) (a b : ℚ) : ℚ × ℕ :=
  let p := R.randomQ st
  (a + (b - a) * p.1, p.2)

/-- Round to the nearest integer, ties to even (Python's `round`). -/
def roundHalfEven (q : ℚ) : ℤ :=
  let f := ⌊q⌋
  let r := q - (f : ℚ)
  if r < 1/2 then f
  else if 1/2 < r then f + 1
  else if f % 2 = 0 then f else f + 1

/-- Python's `round(x, 2)`. -/
def pyRound2 (q : ℚ) : ℚ := (roundHalfEven (100 * q) : ℚ) / 100

/-- Lines 86-88 of the importer: `random.seed(isbn)` followed by
`round(random.uniform(10.0, 60.0), 2)`. -/
def priceFrom (R : RandomLib) (isbn : String) : ℚ × ℕ :=
  let st1 := R.seed isbn
  let p := uniformQ R st1 10 60
  (pyRound2 p.1, p.2)

/-- The normalized book payload built by the importer's load loop. -/
structure Book where
  isbn : String
  title : String
  author : String
  year : Option ℕ
  publisher : String
  image_url : String
  price : ℚ
deriving DecidableEq

instance : Inhabited Book := ⟨⟨"", "", "", none, "", "", 0⟩⟩

/-- Lines 60-103 of the importer: parse one CSV row into a normalized
book.  `C` gives Python's digit classes, `u` is `html.unescape`; the `ℕ`
component threads the RNG state (only a retained row touches the RNG,
and it first reseeds it from the ISBN).  The row-level `try/except`
(lines 61, 102-103) is explicit: `int(year_str)` is reached exactly when
`year_str.isdigit()` holds, and when one of its characters carries no
decimal value `int` raises ValueError and the handler skips the row. -/
def parseRow (C : CharClasses) (R : RandomLib) (u : String → String) (st : ℕ)
    (row : List String) : Option Book × ℕ :=
  if row.length < 8 then (none, st)
  else
    let isbn := pyStrip (row.getD 0 "")
    let title := pyStrip (row.getD 1 "")
    let author := pyStrip (row.getD 2 "")
    let year_str := pyStrip (row.getD 3 "")
    let publisher := u (pyStrip (row.getD 4 ""))
    let image_url := pyStrip (row.getD 7 "")
    if pyIsDigit C year_str = true ∧ pyIntDigits C year_str = none then (none, st)
    else
      let year : ℕ :=
        if pyIsDigit C year_str then (pyIntDigits C year_str).getD 0 else 0
      if isbn = "" ∨ title = "" then (none, st)
      else
        let p := priceFrom R isbn
        (some { isbn := isbn, title := title,
                author := if author = "" then "Unknown" else author,
                year := if 0 < year then some year else none,
                publisher := if publisher = "" then "Unknown Publisher" else publisher,
                image_url := image_url, price := p.1 }, p.2)

/-- The load loop over all rows (rows enumerated from 1, as in
`enumerate(reader, start=1)`); returns the retained books, the 1-based
indices of skipped rows (each of which gets a skip log line), and the
final RNG state. -/
def loadRows (C : CharClasses) (R : RandomLib) (u : String → String) :
    List (List String) → ℕ → ℕ → List Book × List ℕ × ℕ
  | [], _, st => ([], [], st)
  | row :: rest, i, st =>
    let p := parseRow C R u st row
    let rec_rest := loadRows C R u rest (i + 1) p.2
    match p.1 with
    | some b => (b :: rec_rest.1, rec_rest.2.1, rec_rest.2.2)
    | none => (rec_rest.1, i :: rec_rest.2.1, rec_rest.2.2)

/-- Loading a whole CSV (lines 43-103), starting from RNG state `st0`. -/
def loadBooks (C : CharClasses) (R : RandomLib) (u : String → String) (st0 : ℕ)
    (rows : List (List String)) : List Book × List ℕ × ℕ :=
  loadRows C R u rows 1 st0

/-! ## Generator model (`generate_fake_books.py`)

Randomness and `faker` are an oracle threaded as a `ℕ` state: `pickBool`
is `random.random() > 0.5`, `pickNat` supplies the raw draw behind a
`random.choice` / `random.choices` / `random.randint` call (the call site
shapes it into the documented range), and the `fake*` fields are the
faker calls used by the script. -/

structure GenOracle where
  pickBool : ℕ → Bool × ℕ
  pickNat : ℕ → ℕ × ℕ
  fakeWord : ℕ → String × ℕ
  fakeCity : ℕ → String × ℕ
  fakeFirstName : ℕ → String × ℕ
  fakeName : ℕ → String × ℕ

/-- `string.digits[d]`: the digit character drawn by `random.choices(string.digits)`. -/
def digitChar (d : ℕ) : Char := "0123456789".data.getD (d % 10) '0'

/-- `''.join(random.choices(string.digits, k=k))` as a character list. -/
def digitsList (o : GenOracle) : ℕ → ℕ → List Char × ℕ
  | 0, st => ([], st)
  | k + 1, st =>
    let d := o.pickNat st
    let rest := digitsList o k d.2
    (digitChar d.1 :: rest.1, rest.2)

/-- Lines 38-44 of the generator: `random_isbn()`. -/
def random_isbn (o : GenOracle) (st : ℕ) : String × ℕ :=
  let b := o.pickBool st
  if b.1 then
    let pidx := o.pickNat b.2
    let pre : String := if pidx.1 % 2 = 0 then "978" else "979"
    let ds := digitsList o 10 pidx.2
    (pre ++ String.mk ds.1, ds.2)
  else
    let ds := digitsList o 10 b.2
    (String.mk ds.1, ds.2)

/-- The seven substitution values built for a title template, in the order
the `subs` dict computes them. -/
structure TitleSubs where
  adj : String
  noun : String
  place : String
  thing : String
  topic : String
  verb : String
  person : String

/-- Python `str.capitalize()`. -/
def pyCapitalize (s : String) : String :=
  match s.data with
  | [] => ""
  | c :: rest => String.mk (c.toUpper :: rest.map Char.toLower)

/-- The ten title templates of `random_title`, applied to their
substitutions (`str.format` on these templates is plain concatenation). -/
def applyTemplate (k : ℕ) (s : TitleSubs) : String :=
  match k % 10 with
  | 0 => "The " ++ s.adj ++ " " ++ s.noun
  | 1 => s.noun ++ " of " ++ s.place
  | 2 => "A Study in " ++ s.topic
  | 3 => "Chronicles of " ++ s.noun
  | 4 => "Beneath the " ++ s.adj ++ " " ++ s.thing
  | 5 => "The Art of " ++ s.verb
  | 6 => "Voices from " ++ s.place
  | 7 => "Secrets of the " ++ s.noun
  | 8 => "Journey to " ++ s.place
  | _ => "Letters to " ++ s.person

/-- Lines 46-70 of the generator: `random_title()` — choose a template,
build all seven substitutions, format. -/
def random_title (o : GenOracle) (st : ℕ) : String × ℕ :=
  let ti := o.pickNat st
  let w1 := o.fakeWord ti.2
  let w2 := o.fakeWord w1.2
  let pl := o.fakeCity w2.2
  let w3 := o.fakeWord pl.2
  let w4 := o.fakeWord w3.2
  let w5 := o.fakeWord w4.2
  let pn := o.fakeFirstName w5.2
  (applyTemplate (ti.1 % 10)
    ⟨pyCapitalize w1.1, pyCapitalize w2.1, pl.1, pyCapitalize w3.1,
     pyCapitalize w4.1, pyCapitalize w5.1, pn.1⟩, pn.2)

/-- The fixed word lists of `random_publisher`. -/
def pubFirstWords : List String :=
  ["Harper", "Penguin", "Oxford", "Cambridge", "Random",
   "Vintage", "Crown", "Beacon", "Farrar", "Houghton"]

def pubSecondWords : List String :=
  ["Press", "Publishing", "House", "Books", "Group", "Editions"]

/-- Lines 72-76 of the generator: `random_publisher()`. -/
def random_publisher (o : GenOracle) (st : ℕ) : String × ℕ :=
  let i := o.pickNat st
  let j := o.pickNat i.2
  (pubFirstWords.getD (i.1 % 10) "" ++ " " ++ pubSecondWords.getD (j.1 % 6) "", j.2)

/-- Lines 82-89 of the generator: `random_image_urls(isbn)`. -/
def random_image_urls (isbn : String) : String × String × String :=
  let base := "http://images.amazon.com/images/P/" ++ isbn ++ ".01"
  (base ++ ".THUMBZZZ.jpg", base ++ ".MZZZZZZZ.jpg", base ++ ".LZZZZZZZ.jpg")

/-- One generated book dict (the 8 fields written per row). -/
structure GenBook where
  isbn : String
  title : String
  author : String
  year : ℕ
  publisher : String
  urlS : String
  urlM : String
  urlL : String

/-- One pass of the generation loop (lines 93-110), in source order;
`random.randint(1950, 2025)` is the raw draw shaped into `[1950, 2025]`. -/
def genBook (o : GenOracle) (st : ℕ) : GenBook × ℕ :=
  let ib := random_isbn o st
  let tt := random_title o ib.2
  let au := o.fakeName tt.2
  let yk := o.pickNat au.2
  let pb := random_publisher o yk.2
  let urls := random_image_urls ib.1
  (⟨ib.1, tt.1, au.1, 1950 + yk.1 % 76, pb.1, urls.1, urls.2.1, urls.2.2⟩, pb.2)

/-- The generation loop: `for _ in range(n)`. -/
def genBooks (o : GenOracle) : ℕ → ℕ → List GenBook × ℕ
  | 0, st => ([], st)
  | n + 1, st =>
    let b := genBook o st
    let rest := genBooks o n b.2
    (b.1 :: rest.1, rest.2)

/-- The `FIELDS` header row (lines 26-35). -/
def headerRow : List String :=
  ["ISBN", "Book-Title", "Book-Author", "Year-Of-Publication",
   "Publisher", "Image-URL-S", "Image-URL-M", "Image-URL-L"]

/-- The CSV row `csv.DictWriter` writes for one book (cells in `FIELDS`
order; the integer year is rendered as its decimal string). -/
def toRow (b : GenBook) : List String :=
  [b.isbn, b.title, b.author, toString b.year, b.publisher, b.urlS, b.urlM, b.urlL]

/-- The written file (lines 112-116): `writeheader()` then `writerows(books)`.
A CSV file is modelled as its list of rows, which is exactly what
`csv.writer`/`csv.reader` round-trip. -/
def generatorFile (books : List GenBook) : List (List String) :=
  headerRow :: books.map toRow

/-- `int(s)` for an optionally signed decimal string (underscore grouping,
which no claim touches, is not modelled); `none` is `ValueError`. -/
def pyIntParse (s : String) : Option ℤ :=
  match (pyStrip s).data with
  | [] => none
  | '-' :: ds =>
    if ds ≠ [] ∧ ds.all Char.isDigit then some (-(digitsToNat ds : ℤ)) else none
  | '+' :: ds =>
    if ds ≠ [] ∧ ds.all Char.isDigit then some (digitsToNat ds : ℤ) else none
  | ds =>
    if ds.all Char.isDigit then some (digitsToNat ds : ℤ) else none

/-- Lines 14-18 of the generator: `NUM_BOOKS` from `sys.argv`
(IndexError / ValueError fall back to 50). -/
def numBooksOf (argv : List String) : ℤ :=
  ((argv.head?).bind pyIntParse).getD 50

/-- A whole generator run: the file written for the given argv
(`range(n)` of a non-positive `n` is empty, hence `toNat`). -/
def generatorRun (o : GenOracle) (st : ℕ) (argv : List String) : List (List String) :=
  generatorFile (genBooks o (numBooksOf argv).toNat st).1

/-! ## Importer run loop (`auto-import-books.py`, lines 132-198)

Each iteration issues exactly one HTTP POST; the outside world is an
oracle `outcomes : ℕ → PostOutcome` giving, per batch number, either the
HTTP response (status plus the parsed `imported` list, each item reduced
to its `status` string) or a `requests.RequestException`.  Model time is
in whole seconds: the POST itself is instantaneous and each
`time.sleep(1)` advances time by one.  The shutdown flag set by the
signal handler is a function of time. -/

structure Stats where
  batches_sent : ℕ
  items_imported : ℕ
  items_failed : ℕ
  errors : ℕ
deriving DecidableEq

/-- What one `requests.post` call comes back with. -/
inductive PostOutcome where
  | httpResp (status : ℕ) (imported : List String)
  | netError
deriving DecidableEq

/-- Lines 138-169: `post_batch` — its effect on the statistics dict, and
the boolean it returns.  On HTTP status `>= 400` or on a network
exception, only `errors` is bumped; otherwise the per-item outcomes of
the response body are tallied. -/
def post_batch (stats : Stats) (o : PostOutcome) : Stats × Bool :=
  match o with
  | .httpResp status imported =>
    if 400 ≤ status then ({ stats with errors := stats.errors + 1 }, false)
    else
      let success := (imported.filter (fun st => st = "imported")).length
      let fail := (imported.filter (fun st => st = "failed")).length
      ({ stats with items_imported := stats.items_imported + success,
                    items_failed := stats.items_failed + fail }, true)
  | .netError => ({ stats with errors := stats.errors + 1 }, false)

/-- Lines 176-177: select the wraparound batch window and advance the
read position.  `batch = [all_books[(current + i) % len(all_books)] for i
in range(ITEMS_PER_BATCH)]`, then `current = (current + ITEMS_PER_BATCH)
% len(all_books)`. -/
def iterStep (books : List Book) (b current : ℕ) : List Book × ℕ :=
  ((List.range b).map (fun i => books.getD ((current + i) % books.length) default),
   (current + b) % books.length)

/-- Lines 186-189: the inter-batch wait — up to `interval` one-second
sleeps, each preceded by a check of the shutdown flag.  Returns the model
time at which the loop is left. -/
def waitLoop (flag : ℕ → Bool) : ℕ → ℕ → ℕ
  | 0, t => t
  | k + 1, t => if flag t then t else waitLoop flag k (t + 1)

/-- Observable events of a run. -/
inductive Event where
  | posted (time : ℕ) (batchNum : ℕ) (batch : List Book)
  | statsPrinted
deriving DecidableEq

/-- Lines 174-189: the main `while not shutdown_requested` loop.  `fuel`
bounds the recursion (the Python loop may be unbounded); running out of
fuel just truncates the modelled run.  Returns the final statistics and
the trace of posted batches. -/
def runLoop (flag : ℕ → Bool) (outcomes : ℕ → PostOutcome) (books : List Book)
    (b interval maxB : ℕ) : ℕ → ℕ → Stats → ℕ → Stats × List Event
  | 0, _, stats, _ => (stats, [])
  | fuel + 1, current, stats, t =>
    if flag t then (stats, [])
    else
      let stats1 := { stats with batches_sent := stats.batches_sent + 1 }
      let step := iterStep books b current
      let pb := post_batch stats1 (outcomes stats1.batches_sent)
      let ev := Event.posted t stats1.batches_sent step.1
      if 0 < maxB ∧ maxB ≤ pb.1.batches_sent then (pb.1, [ev])
      else
        let t2 := waitLoop flag interval t
        let rest := runLoop flag outcomes books b interval maxB fuel step.2 pb.1 t2
        (rest.1, ev :: rest.2)

/-- Lines 171-198: the run from the zeroed statistics dict through the
`finally` block, which prints the cumulative statistics once. -/
def runImporter (flag : ℕ → Bool) (outcomes : ℕ → PostOutcome) (books : List Book)
    (b interval maxB fuel t : ℕ) : Stats × List Event :=
  let r := runLoop flag outcomes books b interval maxB fuel 0 ⟨0, 0, 0, 0⟩ t
  (r.1, r.2 ++ [Event.statsPrinted])

/-! ## Importer startup (lines 38-122): outcome and exit code -/

inductive ImporterOutcome where
  | missingFile
  | noValidBooks
  | noAuth
  | ran
deriving DecidableEq

/-- The startup decision sequence of the importer, in source order: the
file-existence check (line 39), the load, the empty-set check (line 105),
then authentication resolution (lines 112-122). -/
def importerOutcome (C : CharClasses) (fileExists : Bool)
    (rows : List (List String)) (apiKey wpUser wpPass : String)
    (R : RandomLib) (u : String → String) (st0 : ℕ) : ImporterOutcome :=
  if !fileExists then .missingFile
  else if (loadBooks C R u st0 rows).1 = [] then .noValidBooks
  else if apiKey ≠ "" then .ran
  else if wpUser ≠ "" ∧ wpPass ≠ "" then .ran
  else .noAuth

/-- The process exit code of each outcome: `sys.exit(2)` at line 41,
`sys.exit(0)` at line 107, `sys.exit(2)` at line 122, and falling off the
end of the script (exit 0) for a run. -/
def exitCodeOf : ImporterOutcome → ℕ
  | .missingFile => 2
  | .noValidBooks => 0
  | .noAuth => 2
  | .ran => 0

/-! ## Auxiliary definitions for the statements -/

/-- The book a valid row (8 or more columns, no year ValueError,
non-empty stripped ISBN and title) is normalized to; `parseRow` returns
exactly this book on such a row. -/
def bookOfRow (C : CharClasses) (R : RandomLib) (u : String → String)
    (row : List String) : Book :=
  let isbn := pyStrip (row.getD 0 "")
  let author := pyStrip (row.getD 2 "")
  let year_str := pyStrip (row.getD 3 "")
  let publisher := u (pyStrip (row.getD 4 ""))
  let year : ℕ :=
    if pyIsDigit C year_str then (pyIntDigits C year_str).getD 0 else 0
  { isbn := isbn, title := pyStrip (row.getD 1 ""),
    author := if author = "" then "Unknown" else author,
    year := if 0 < year then some year else none,
    publisher := if publisher = "" then "Unknown Publisher" else publisher,
    image_url := pyStrip (row.getD 7 ""), price := (priceFrom R isbn).1 }

/-- The shutdown flag only ever goes from unset to set (the signal
handler never clears it). -/
def FlagMono (flag : ℕ → Bool) : Prop :=
  ∀ s t : ℕ, s ≤ t → flag s = true → flag t = true

/-- A concrete `RandomLib` (used to instantiate universally quantified
statements at evaluable inputs). -/
def simpleR : RandomLib :=
  ⟨fun s => s.length, fun st => (0, st + 1), fun _ => le_refl 0, fun _ => by norm_num⟩

/-- A concrete character-class assignment agreeing with CPython on every
character it mentions: ASCII decimal digits carry their values, and
U+00B2 SUPERSCRIPT TWO ('²', code point 178) is the one modelled
non-ASCII isdigit character — Numeric_Type Digit but not Nd, so it has
no decimal value and `int()` raises on it, exactly as in CPython. -/
def demoClasses : CharClasses where
  isdigit c := decide (48 ≤ c.toNat ∧ c.toNat ≤ 57) || decide (c.toNat = 178)
  decVal c := if 48 ≤ c.toNat ∧ c.toNat ≤ 57 then some (c.toNat - 48) else none
  ascii_isdigit := by
    intro c hc
    simp only [Bool.or_eq_true, decide_eq_true_eq]
    omega
  ascii_decVal := by intro c _; rfl
  decVal_isdigit := by
    intro c v hv
    simp only [Bool.or_eq_true, decide_eq_true_eq]
    by_cases h : 48 ≤ c.toNat ∧ c.toNat ≤ 57
    · exact Or.inl h
    · simp [h] at hv
  decVal_lt := by
    intro c v hv
    by_cases h : 48 ≤ c.toNat ∧ c.toNat ≤ 57
    · simp [h] at hv
      omega
    · simp [h] at hv

/-- A concrete generator oracle (used to instantiate universally
quantified statements at evaluable inputs). -/
def demoOracle : GenOracle :=
  { pickBool := fun st => (decide (st % 2 = 0), st + 1)
    pickNat := fun st => (st, st + 1)
    fakeWord := fun st => ("lorem", st + 1)
    fakeCity := fun st => ("Springfield", st + 1)
    fakeFirstName := fun st => ("Alex", st + 1)
    fakeName := fun st => ("Alex Smith", st + 1) }

/-! ## Basic lemmas about the row parser -/

theorem parseRow_of_short (C : CharClasses) (R : RandomLib) (u : String → String)
    (st : ℕ) (row : List String) (h : row.length < 8) :
    parseRow C R u st row = (none, st) := by
  simp [parseRow, h]

theorem parseRow_of_yearError (C : CharClasses) (R : RandomLib)
    (u : String → String) (st : ℕ) (row : List String) (h8 : ¬row.length < 8)
    (hy : pyIsDigit C (pyStrip (row.getD 3 "")) = true ∧
      pyIntDigits C (pyStrip (row.getD 3 "")) = none) :
    parseRow C R u st row = (none, st) := by
  simp only [parseRow, if_neg h8]
  rw [if_pos hy]

theorem parseRow_of_missing (C : CharClasses) (R : RandomLib)
    (u : String → String) (st : ℕ) (row : List String) (h8 : ¬row.length < 8)
    (hy : ¬(pyIsDigit C (pyStrip (row.getD 3 "")) = true ∧
      pyIntDigits C (pyStrip (row.getD 3 "")) = none))
    (h : pyStrip (row.getD 0 "") = "" ∨ pyStrip (row.getD 1 "") = "") :
    parseRow C R u st row = (none, st) := by
  simp only [parseRow, if_neg h8]
  rw [if_neg hy, if_pos h]

theorem parseRow_of_valid (C : CharClasses) (R : RandomLib)
    (u : String → String) (st : ℕ) (row : List String) (h8 : ¬row.length < 8)
    (hy : ¬(pyIsDigit C (pyStrip (row.getD 3 "")) = true ∧
      pyIntDigits C (pyStrip (row.getD 3 "")) = none))
    (hi : pyStrip (row.getD 0 "") ≠ "") (ht : pyStrip (row.getD 1 "") ≠ "") :
    parseRow C R u st row =
      (some (bookOfRow C R u row), (priceFrom R (pyStrip (row.getD 0 ""))).2) := by
  simp only [parseRow, if_neg h8]
  rw [if_neg hy, if_neg (not_or.mpr ⟨hi, ht⟩)]
  rfl

theorem parseRow_some_inv (C : CharClasses) (R : RandomLib)
    (u : String → String) (st : ℕ) (row : List String) (b : Book)
    (h : (parseRow C R u st row).1 = some b) :
    ¬row.length < 8 ∧
    ¬(pyIsDigit C (pyStrip (row.getD 3 "")) = true ∧
      pyIntDigits C (pyStrip (row.getD 3 "")) = none) ∧
    pyStrip (row.getD 0 "") ≠ "" ∧ pyStrip (row.getD 1 "") ≠ "" ∧
      b = bookOfRow C R u row := by
  by_cases h8 : row.length < 8
  · rw [parseRow_of_short C R u st row h8] at h; simp at h
  · by_cases hy : pyIsDigit C (pyStrip (row.getD 3 "")) = true ∧
      pyIntDigits C (pyStrip (row.getD 3 "")) = none
    · rw [parseRow_of_yearError C R u st row h8 hy] at h; simp at h
    · by_cases hm : pyStrip (row.getD 0 "") = "" ∨ pyStrip (row.getD 1 "") = ""
      · rw [parseRow_of_missing C R u st row h8 hy hm] at h; simp at h
      · push_neg at hm
        rw [parseRow_of_valid C R u st row h8 hy hm.1 hm.2] at h
        simp at h
        exact ⟨h8, hy, hm.1, hm.2, h.symm⟩

/-- The parse decision and the produced book do not depend on the
incoming RNG state (a retained row first reseeds from its ISBN). -/
theorem parseRow_fst_indep (C : CharClasses) (R : RandomLib)
    (u : String → String) (st st' : ℕ) (row : List String) :
    (parseRow C R u st row).1 = (parseRow C R u st' row).1 := by
  by_cases h8 : row.length < 8
  · rw [parseRow_of_short C R u st row h8, parseRow_of_short C R u st' row h8]
  · by_cases hy : pyIsDigit C (pyStrip (row.getD 3 "")) = true ∧
      pyIntDigits C (pyStrip (row.getD 3 "")) = none
    · rw [parseRow_of_yearError C R u st row h8 hy,
          parseRow_of_yearError C R u st' row h8 hy]
    · by_cases hm : pyStrip (row.getD 0 "") = "" ∨ pyStrip (row.getD 1 "") = ""
      · rw [parseRow_of_missing C R u st row h8 hy hm,
            parseRow_of_missing C R u st' row h8 hy hm]
      · push_neg at hm
        rw [parseRow_of_valid C R u st row h8 hy hm.1 hm.2,
            parseRow_of_valid C R u st' row h8 hy hm.1 hm.2]

/-! ## Price bounds -/

theorem roundHalfEven_cases (q : ℚ) :
    roundHalfEven q = ⌊q⌋ ∨ roundHalfEven q = ⌊q⌋ + 1 := by
  simp only [roundHalfEven]
  split_ifs <;> simp

theorem pyRound2_bounds (q : ℚ) (h1 : 10 ≤ q) (h2 : q < 60) :
    10 ≤ pyRound2 q ∧ pyRound2 q ≤ 60 := by
  have hq1 : (1000 : ℚ) ≤ 100 * q := by linarith
  have hq2 : 100 * q < 6000 := by linarith
  have hf1 : (1000 : ℤ) ≤ ⌊100 * q⌋ := by
    rw [Int.le_floor]; exact_mod_cast hq1
  have hf2 : ⌊100 * q⌋ < 6000 := by
    rw [Int.floor_lt]; exact_mod_cast hq2
  have hb1 : (1000 : ℤ) ≤ roundHalfEven (100 * q) := by
    rcases roundHalfEven_cases (100 * q) with h | h <;> omega
  have hb2 : roundHalfEven (100 * q) ≤ 6000 := by
    rcases roundHalfEven_cases (100 * q) with h | h <;> omega
  have hb1q : (1000 : ℚ) ≤ (roundHalfEven (100 * q) : ℚ) := by exact_mod_cast hb1
  have hb2q : (roundHalfEven (100 * q) : ℚ) ≤ 6000 := by exact_mod_cast hb2
  unfold pyRound2
  constructor
  · rw [le_div_iff₀ (by norm_num : (0 : ℚ) < 100)]; linarith
  · rw [div_le_iff₀ (by norm_num : (0 : ℚ) < 100)]; linarith

theorem priceFrom_eq (R : RandomLib) (isbn : String) :
    (priceFrom R isbn).1 = pyRound2 (10 + (60 - 10) * (R.randomQ (R.seed isbn)).1) :=
  rfl

theorem priceFrom_bounds (R : RandomLib) (isbn : String) :
    10 ≤ (priceFrom R isbn).1 ∧ (priceFrom R isbn).1 ≤ 60 := by
  have h0 := R.random_nonneg (R.seed isbn)
  have h1 := R.random_lt_one (R.seed isbn)
  rw [priceFrom_eq]
  exact pyRound2_bounds _ (by nlinarith) (by nlinarith)

/-! ## Claim C3: wraparound batch selection -/

/-- C3: at every iteration of the running loop, for every record-set size
`>= 1` and configured batch size `>= 1`, the selected batch has exactly
the configured size, element `i` of it is
`all_books[(current + i) % len(all_books)]`, and the read position
advances by the batch size modulo the set size (`iterStep` is the batch
selection the loop body `runLoop` performs each iteration). -/
theorem batch_window_wraparound (books : List Book) (current b : ℕ)
    (hn : books ≠ []) (hb : 1 ≤ b) :
    (iterStep books b current).1.length = b ∧
    (∀ i, i < b → (iterStep books b current).1.getD i default =
      books.getD ((current + i) % books.length) default) ∧
    (iterStep books b current).2 = (current + b) % books.length := by
  refine ⟨by simp [iterStep], ?_, rfl⟩
  intro i hi
  simp [iterStep, List.getD_eq_getElem?_getD, List.getElem?_map,
    List.getElem?_range hi]

/-- Witness for C3 on a concrete set and batch size. -/
theorem batch_window_wraparound_witness :
    (iterStep [(default : Book)] 2 0).1.length = 2 ∧
    (iterStep [(default : Book)] 2 0).2 = 0 :=
  ⟨(batch_window_wraparound [default] 0 2 (by simp) (by norm_num)).1,
   (batch_window_wraparound [default] 0 2 (by simp) (by norm_num)).2.2⟩

/-! ## Claim C5: the price is a deterministic function of the ISBN, in [10, 60] -/

/-- C5: two parses of rows with the same (stripped) ISBN — whatever the
incoming RNG states, i.e. in the same or different runs — yield the same
price, and the price always lies in `[10.00, 60.00]`. -/
theorem price_deterministic_and_bounded (C : CharClasses) (R : RandomLib)
    (u : String → String) (st1 st2 : ℕ) (row1 row2 : List String) (b1 b2 : Book)
    (h1 : (parseRow C R u st1 row1).1 = some b1)
    (h2 : (parseRow C R u st2 row2).1 = some b2)
    (hisbn : pyStrip (row1.getD 0 "") = pyStrip (row2.getD 0 "")) :
    b1.price = b2.price ∧ 10 ≤ b1.price ∧ b1.price ≤ 60 := by
  obtain ⟨-, -, -, -, hb1⟩ := parseRow_some_inv C R u st1 row1 b1 h1
  obtain ⟨-, -, -, -, hb2⟩ := parseRow_some_inv C R u st2 row2 b2 h2
  have e1 : b1.price = (priceFrom R (pyStrip (row1.getD 0 ""))).1 := by rw [hb1]; rfl
  have e2 : b2.price = (priceFrom R (pyStrip (row2.getD 0 ""))).1 := by rw [hb2]; rfl
  refine ⟨?_, ?_, ?_⟩
  · rw [e1, e2, hisbn]
  · rw [e1]; exact (priceFrom_bounds R _).1
  · rw [e1]; exact (priceFrom_bounds R _).2

/-- Witness for C5 on a concrete row parsed twice from different RNG
states. -/
theorem price_deterministic_and_bounded_witness :
    (bookOfRow demoClasses simpleR id [" 1 ", "t", "", "", "", "", "", ""]).price =
      (bookOfRow demoClasses simpleR id [" 1 ", "t", "", "", "", "", "", ""]).price ∧
    10 ≤ (bookOfRow demoClasses simpleR id [" 1 ", "t", "", "", "", "", "", ""]).price ∧
    (bookOfRow demoClasses simpleR id [" 1 ", "t", "", "", "", "", "", ""]).price ≤ 60 :=
  price_deterministic_and_bounded demoClasses simpleR id 0 7
    [" 1 ", "t", "", "", "", "", "", ""] [" 1 ", "t", "", "", "", "", "", ""]
    _ _
    (by rw [parseRow_of_valid demoClasses simpleR id 0 _ (by decide) (by decide)
        (by decide) (by decide)])
    (by rw [parseRow_of_valid demoClasses simpleR id 7 _ (by decide) (by decide)
        (by decide) (by decide)])
    rfl

/-! ## Claim C9: year normalization -/

/-- C9: for every parsed record, the year is `none` ("unknown") exactly
when the stripped source year column is not isdigit or does not denote a
positive integer; otherwise it equals the positive integer `int()`
parses — including non-ASCII decimal-digit (Nd) strings, which `int`
accepts.  A year column on which `int` raises never yields a parsed
record (the row is skipped), and a row lacking the column is skipped for
width, so the claim is vacuous there. -/
theorem year_normalization (C : CharClasses) (R : RandomLib)
    (u : String → String) (st : ℕ) (row : List String) (b : Book)
    (h : (parseRow C R u st row).1 = some b) :
    (b.year = none ↔
      ¬(pyIsDigit C (pyStrip (row.getD 3 "")) = true ∧
        0 < (pyIntDigits C (pyStrip (row.getD 3 ""))).getD 0)) ∧
    (∀ n, b.year = some n ↔
      pyIsDigit C (pyStrip (row.getD 3 "")) = true ∧
      pyIntDigits C (pyStrip (row.getD 3 "")) = some n ∧ 0 < n) := by
  obtain ⟨-, hy, -, -, hb⟩ := parseRow_some_inv C R u st row b h
  have hyear : b.year =
      (if 0 < (if pyIsDigit C (pyStrip (row.getD 3 "")) then
        (pyIntDigits C (pyStrip (row.getD 3 ""))).getD 0 else 0) then
        some (if pyIsDigit C (pyStrip (row.getD 3 "")) then
          (pyIntDigits C (pyStrip (row.getD 3 ""))).getD 0 else 0) else none) := by
    rw [hb]; rfl
  have yearNorm : ∀ (A : Bool) (w : ℕ),
      (if 0 < (if A = true then w else 0) then
        some (if A = true then w else 0) else none) =
      (if A = true ∧ 0 < w then some w else none) := by
    intro A w; cases A <;> simp
  have hy2 : b.year =
      (if pyIsDigit C (pyStrip (row.getD 3 "")) = true ∧
          0 < (pyIntDigits C (pyStrip (row.getD 3 ""))).getD 0 then
        some ((pyIntDigits C (pyStrip (row.getD 3 ""))).getD 0) else none) := by
    rw [hyear, yearNorm]
  refine ⟨?_, fun n => ?_⟩
  · rw [hy2]; split_ifs with hcond
    · exact iff_of_false (by simp) (not_not_intro hcond)
    · exact iff_of_true rfl hcond
  · rw [hy2]; split_ifs with hcond
    · obtain ⟨hd, hp⟩ := hcond
      obtain ⟨v, hv⟩ : ∃ v, pyIntDigits C (pyStrip (row.getD 3 "")) = some v := by
        rcases he : pyIntDigits C (pyStrip (row.getD 3 "")) with _ | v
        · exact absurd ⟨hd, he⟩ hy
        · exact ⟨v, rfl⟩
      have hpv : 0 < v := by rwa [hv, Option.getD_some] at hp
      rw [hv, Option.getD_some]
      constructor
      · intro he
        have hvn := Option.some.inj he
        exact ⟨hd, he, hvn ▸ hpv⟩
      · intro he
        exact he.2.1
    · refine iff_of_false (by simp) ?_
      intro he
      exact hcond ⟨he.1, by rw [he.2.1, Option.getD_some]; exact he.2.2⟩

/-- Witness for C9: a concrete row whose year column is "2003". -/
theorem year_normalization_witness :
    (bookOfRow demoClasses simpleR id
      ["1", "t", "a", "2003", "p", "x", "y", "z"]).year = some 2003 :=
  ((year_normalization demoClasses simpleR id 0
      ["1", "t", "a", "2003", "p", "x", "y", "z"]
      (bookOfRow demoClasses simpleR id ["1", "t", "a", "2003", "p", "x", "y", "z"])
      (by rw [parseRow_of_valid demoClasses simpleR id 0 _ (by decide) (by decide)
          (by decide) (by decide)])).2
    2003).mpr ⟨by decide, by decide, by decide⟩

/-! ## Claim C4: row filtering and defaulting -/

/-- Unfolding `loadRows` on a retained head row. -/
theorem loadRows_cons_some (C : CharClasses) (R : RandomLib) (u : String → String)
    (row : List String) (rest : List (List String)) (i st : ℕ) (b : Book)
    (h : (parseRow C R u st row).1 = some b) :
    loadRows C R u (row :: rest) i st =
      (b :: (loadRows C R u rest (i + 1) (parseRow C R u st row).2).1,
       (loadRows C R u rest (i + 1) (parseRow C R u st row).2).2.1,
       (loadRows C R u rest (i + 1) (parseRow C R u st row).2).2.2) := by
  simp only [loadRows]
  rw [h]

/-- Unfolding `loadRows` on a skipped head row. -/
theorem loadRows_cons_none (C : CharClasses) (R : RandomLib) (u : String → String)
    (row : List String) (rest : List (List String)) (i st : ℕ)
    (h : (parseRow C R u st row).1 = none) :
    loadRows C R u (row :: rest) i st =
      ((loadRows C R u rest (i + 1) (parseRow C R u st row).2).1,
       i :: (loadRows C R u rest (i + 1) (parseRow C R u st row).2).2.1,
       (loadRows C R u rest (i + 1) (parseRow C R u st row).2).2.2) := by
  simp only [loadRows]
  rw [h]

/-- Retained books are exactly the per-row parses, in order (the parse of
a row does not depend on the RNG state it is reached in). -/
theorem loadRows_books_eq (C : CharClasses) (R : RandomLib) (u : String → String) :
    ∀ (rows : List (List String)) (i st : ℕ),
      (loadRows C R u rows i st).1 = rows.filterMap (fun r => (parseRow C R u 0 r).1) := by
  intro rows
  induction rows with
  | nil => intro i st; simp [loadRows]
  | cons row rest ih =>
    intro i st
    cases h : (parseRow C R u 0 row).1 with
    | none =>
      have h' : (parseRow C R u st row).1 = none := (parseRow_fst_indep C R u st 0 row).trans h
      rw [loadRows_cons_none C R u row rest i st h']
      simp [List.filterMap_cons, h, ih (i + 1) (parseRow C R u st row).2]
    | some b =>
      have h' : (parseRow C R u st row).1 = some b := (parseRow_fst_indep C R u st 0 row).trans h
      rw [loadRows_cons_some C R u row rest i st b h']
      simp [List.filterMap_cons, h, ih (i + 1) (parseRow C R u st row).2]

/-- Every logged skip index is at least the starting index. -/
theorem loadRows_skip_ge (C : CharClasses) (R : RandomLib) (u : String → String) :
    ∀ (rows : List (List String)) (i st x : ℕ),
      x ∈ (loadRows C R u rows i st).2.1 → i ≤ x := by
  intro rows
  induction rows with
  | nil => intro i st x hx; simp [loadRows] at hx
  | cons row rest ih =>
    intro i st x hx
    cases h : (parseRow C R u st row).1 with
    | none =>
      rw [loadRows_cons_none C R u row rest i st h] at hx
      simp at hx
      rcases hx with rfl | hx
      · exact le_refl x
      · exact le_trans (Nat.le_succ i) (ih (i + 1) _ x hx)
    | some b =>
      rw [loadRows_cons_some C R u row rest i st b h] at hx
      simp at hx
      exact le_trans (Nat.le_succ i) (ih (i + 1) _ x hx)

/-- A skip is logged for row `j` (0-based here, logged 1-based from `i`)
precisely when that row's parse is rejected. -/
theorem loadRows_skip_mem (C : CharClasses) (R : RandomLib) (u : String → String) :
    ∀ (rows : List (List String)) (i st j : ℕ), j < rows.length →
      ((i + j) ∈ (loadRows C R u rows i st).2.1 ↔
        (parseRow C R u 0 (rows.getD j [])).1 = none) := by
  intro rows
  induction rows with
  | nil => intro i st j hj; simp at hj
  | cons row rest ih =>
    intro i st j hj
    cases j with
    | zero =>
      cases h : (parseRow C R u st row).1 with
      | none =>
        have h0 : (parseRow C R u 0 row).1 = none := (parseRow_fst_indep C R u 0 st row).trans h
        rw [loadRows_cons_none C R u row rest i st h]
        simp [h0]
      | some b =>
        have h0 : (parseRow C R u 0 row).1 = some b := (parseRow_fst_indep C R u 0 st row).trans h
        rw [loadRows_cons_some C R u row rest i st b h]
        simp only [Nat.add_zero, List.getD_cons_zero, h0]
        refine iff_of_false ?_ (by simp)
        intro hx
        have hge := loadRows_skip_ge C R u rest (i + 1) (parseRow C R u st row).2 i hx
        omega
    | succ j' =>
      have hj' : j' < rest.length := by simpa using hj
      have hrec := ih (i + 1) (parseRow C R u st row).2 j' hj'
      have harith : i + (j' + 1) = i + 1 + j' := by omega
      cases h : (parseRow C R u st row).1 with
      | none =>
        rw [loadRows_cons_none C R u row rest i st h]
        simp only [List.getD_cons_succ, List.mem_cons, harith]
        constructor
        · intro hx
          rcases hx with he | hx
          · omega
          · exact hrec.mp hx
        · intro hx
          exact Or.inr (hrec.mpr hx)
      | some b =>
        rw [loadRows_cons_some C R u row rest i st b h]
        simp only [List.getD_cons_succ, harith]
        exact hrec

/-- C4 counterexample: a row with 8 columns and non-blank ISBN and title
whose year column is the single character '²' (U+00B2) — isdigit-true,
so `int(year_str)` is called, but it has no decimal value, so `int`
raises and the row-level `except` skips the row.  The year field thus
*does* cause rejection, against the claim that all non-key fields only
degrade to defaults. -/
theorem row_filtering_cex :
    (parseRow demoClasses simpleR id 0 ["1", "t", "a", "²", "p", "x", "y", "z"]).1
      = none ∧
    ¬(["1", "t", "a", "²", "p", "x", "y", "z"] : List String).length < 8 ∧
    pyStrip "1" ≠ "" ∧ pyStrip "t" ≠ "" := by
  refine ⟨?_, by norm_num, by decide, by decide⟩
  decide

/-- C4 amended: a row is rejected exactly when it has fewer than 8
columns, or its stripped ISBN or title is empty, or its year column
passes `isdigit()` but `int()` raises on it (a digit-class character with
no decimal value); the 1-based index of every rejected row is logged as
skipped; every retained record has non-empty ISBN and title, and author
and publisher degrade to the sentinels "Unknown" / "Unknown Publisher"
instead of causing rejection. -/
theorem row_filtering_amended (C : CharClasses) (R : RandomLib)
    (u : String → String) (st st0 : ℕ) (row : List String)
    (rows : List (List String)) :
    ((parseRow C R u st row).1 = none ↔
      row.length < 8 ∨ pyStrip (row.getD 0 "") = "" ∨ pyStrip (row.getD 1 "") = "" ∨
      (pyIsDigit C (pyStrip (row.getD 3 "")) = true ∧
        pyIntDigits C (pyStrip (row.getD 3 "")) = none)) ∧
    (∀ b, (parseRow C R u st row).1 = some b →
      b.isbn ≠ "" ∧ b.title ≠ "" ∧
      b.author = (if pyStrip (row.getD 2 "") = "" then "Unknown"
        else pyStrip (row.getD 2 "")) ∧
      b.publisher = (if u (pyStrip (row.getD 4 "")) = "" then "Unknown Publisher"
        else u (pyStrip (row.getD 4 "")))) ∧
    (loadBooks C R u st0 rows).1 = rows.filterMap (fun r => (parseRow C R u 0 r).1) ∧
    (∀ j, j < rows.length →
      ((1 + j) ∈ (loadBooks C R u st0 rows).2.1 ↔
        (parseRow C R u 0 (rows.getD j [])).1 = none)) := by
  refine ⟨?_, ?_, loadRows_books_eq C R u rows 1 st0,
    fun j hj => loadRows_skip_mem C R u rows 1 st0 j hj⟩
  · constructor
    · intro hn
      by_contra hc
      push_neg at hc
      obtain ⟨h8, hi, ht, hy⟩ := hc
      rw [parseRow_of_valid C R u st row (by omega) (by tauto) hi ht] at hn
      simp at hn
    · intro hc
      rcases hc with h8 | hm | hm | hy
      · rw [parseRow_of_short C R u st row h8]
      · by_cases h8 : row.length < 8
        · rw [parseRow_of_short C R u st row h8]
        · by_cases hy : pyIsDigit C (pyStrip (row.getD 3 "")) = true ∧
            pyIntDigits C (pyStrip (row.getD 3 "")) = none
          · rw [parseRow_of_yearError C R u st row h8 hy]
          · rw [parseRow_of_missing C R u st row h8 hy (Or.inl hm)]
      · by_cases h8 : row.length < 8
        · rw [parseRow_of_short C R u st row h8]
        · by_cases hy : pyIsDigit C (pyStrip (row.getD 3 "")) = true ∧
            pyIntDigits C (pyStrip (row.getD 3 "")) = none
          · rw [parseRow_of_yearError C R u st row h8 hy]
          · rw [parseRow_of_missing C R u st row h8 hy (Or.inr hm)]
      · by_cases h8 : row.length < 8
        · rw [parseRow_of_short C R u st row h8]
        · rw [parseRow_of_yearError C R u st row h8 hy]
  · intro b hb
    obtain ⟨h8, hy, hi, ht, hbe⟩ := parseRow_some_inv C R u st row b hb
    subst hbe
    exact ⟨hi, ht, rfl, rfl⟩

/-- Witness for the amended C4: a 2-column row is rejected, a full row
with blank author is retained with the sentinel author. -/
theorem row_filtering_amended_witness :
    (parseRow demoClasses simpleR id 0 ["x", "t"]).1 = none ∧
    (bookOfRow demoClasses simpleR id
      ["1", "t", " ", "1999", "p", "a", "b", "c"]).author = "Unknown" :=
  ⟨(row_filtering_amended demoClasses simpleR id 0 0 ["x", "t"] []).1.mpr
      (Or.inl (by norm_num)),
   by
    have h := (row_filtering_amended demoClasses simpleR id 0 0
      ["1", "t", " ", "1999", "p", "a", "b", "c"] []).2.1
      (bookOfRow demoClasses simpleR id ["1", "t", " ", "1999", "p", "a", "b", "c"])
      (by rw [parseRow_of_valid demoClasses simpleR id 0 _ (by decide) (by decide)
          (by decide) (by decide)])
    rw [h.2.2.1]
    decide⟩

/-! ## Claim C6: failure handling in the run loop -/

/-- `post_batch` never touches the batch counter. -/
theorem post_batch_batches_sent (s : Stats) (o : PostOutcome) :
    (post_batch s o).1.batches_sent = s.batches_sent := by
  cases o with
  | httpResp status imported =>
    simp only [post_batch]
    split_ifs <;> rfl
  | netError => rfl

/-- The sequence of posted batches (their times, numbers and contents)
and the number of batches sent do not depend on the outcomes at all:
every iteration makes exactly one post and the loop continues identically
after failures. -/
theorem runLoop_trace_indep (flag : ℕ → Bool) (o1 o2 : ℕ → PostOutcome)
    (books : List Book) (b interval maxB : ℕ) :
    ∀ (fuel cur t : ℕ) (s1 s2 : Stats), s1.batches_sent = s2.batches_sent →
      (runLoop flag o1 books b interval maxB fuel cur s1 t).2 =
        (runLoop flag o2 books b interval maxB fuel cur s2 t).2 ∧
      (runLoop flag o1 books b interval maxB fuel cur s1 t).1.batches_sent =
        (runLoop flag o2 books b interval maxB fuel cur s2 t).1.batches_sent := by
  intro fuel
  induction fuel with
  | zero => intro cur t s1 s2 hbs; exact ⟨rfl, hbs⟩
  | succ fuel ih =>
    intro cur t s1 s2 hbs
    by_cases hf : flag t
    · simp [runLoop, hf, hbs]
    · simp only [runLoop, hf, Bool.false_eq_true, if_false]
      simp only [hbs, post_batch_batches_sent]
      by_cases hmax : 0 < maxB ∧ maxB ≤ s2.batches_sent + 1
      · simp [hmax, post_batch_batches_sent]
      · simp only [hmax, if_false]
        obtain ⟨h1, h2⟩ := ih (iterStep books b cur).2 (waitLoop flag interval t)
          (post_batch { s1 with batches_sent := s2.batches_sent + 1 }
            (o1 (s2.batches_sent + 1))).1
          (post_batch { s2 with batches_sent := s2.batches_sent + 1 }
            (o2 (s2.batches_sent + 1))).1
          (by simp [post_batch_batches_sent])
        exact ⟨by simp [h1], h2⟩

/-- C6: on an iteration whose POST returns HTTP status `>= 400` or raises
a network exception, exactly the `errors` counter is incremented (by one,
identically for both failure kinds) and `items_imported` / `items_failed`
are untouched; no retry happens and the loop goes on regardless: the
whole posting schedule (one post per iteration) and batch count are
independent of the outcomes. -/
theorem failure_handling (stats : Stats) (status : ℕ) (body : List String)
    (hs : 400 ≤ status) (flag : ℕ → Bool) (o1 o2 : ℕ → PostOutcome)
    (books : List Book) (b interval maxB fuel cur t : ℕ) (s1 s2 : Stats)
    (hbs : s1.batches_sent = s2.batches_sent) :
    post_batch stats (.httpResp status body) =
      ({ stats with errors := stats.errors + 1 }, false) ∧
    post_batch stats .netError = ({ stats with errors := stats.errors + 1 }, false) ∧
    (runLoop flag o1 books b interval maxB fuel cur s1 t).2 =
      (runLoop flag o2 books b interval maxB fuel cur s2 t).2 ∧
    (runLoop flag o1 books b interval maxB fuel cur s1 t).1.batches_sent =
      (runLoop flag o2 books b interval maxB fuel cur s2 t).1.batches_sent := by
  obtain ⟨h1, h2⟩ := runLoop_trace_indep flag o1 o2 books b interval maxB
    fuel cur t s1 s2 hbs
  refine ⟨?_, rfl, h1, h2⟩
  simp only [post_batch]
  rw [if_pos hs]

/-- Witness for C6 with concrete stats, outcomes and loop parameters. -/
theorem failure_handling_witness :
    post_batch ⟨7, 1, 2, 3⟩ (.httpResp 500 ["imported"]) = (⟨7, 1, 2, 4⟩, false) ∧
    post_batch ⟨7, 1, 2, 3⟩ .netError = (⟨7, 1, 2, 4⟩, false) ∧
    (runLoop (fun _ => false) (fun _ => .netError) [default] 1 0 1 2 0 ⟨0, 5, 0, 0⟩ 0).2 =
      (runLoop (fun _ => false) (fun _ => .httpResp 200 ["imported"]) [default]
        1 0 1 2 0 ⟨0, 0, 3, 1⟩ 0).2 ∧
    (runLoop (fun _ => false) (fun _ => .netError) [default] 1 0 1 2 0
      ⟨0, 5, 0, 0⟩ 0).1.batches_sent =
      (runLoop (fun _ => false) (fun _ => .httpResp 200 ["imported"]) [default]
        1 0 1 2 0 ⟨0, 0, 3, 1⟩ 0).1.batches_sent :=
  failure_handling ⟨7, 1, 2, 3⟩ 500 ["imported"] (by norm_num)
    (fun _ => false) (fun _ => .netError) (fun _ => .httpResp 200 ["imported"])
    [default] 1 0 1 2 0 0 ⟨0, 5, 0, 0⟩ ⟨0, 0, 3, 1⟩ rfl

/-! ## Claim C7: exit codes -/

/-- C7 counterexample: with the file present, a CSV whose single row is
empty (zero valid records) and no credentials configured, the importer
exits with code 0 — even though the run never reached the running phase
(and even though no authentication was configured, which the claim says
implies exit code 2).  So "exit code 0 exactly for a completed or
interrupted run" is false on the code. -/
theorem exit_code_claim_cex :
    ¬(exitCodeOf (importerOutcome demoClasses true [[]] "" "" "" simpleR id 0) = 0 ↔
      importerOutcome demoClasses true [[]] "" "" "" simpleR id 0 = ImporterOutcome.ran) := by
  decide

/-- C7 amended: exit code 2 exactly when the file is missing, or when the
load retains at least one record but no authentication is configured; exit
code 0 both for runs that reach the running phase and for the
zero-valid-records outcome (which the code treats as exit 0 despite the
spec calling it fatal). -/
theorem exit_code_contract (C : CharClasses) (fe : Bool) (rows : List (List String))
    (k us pw : String) (R : RandomLib) (u : String → String) (st0 : ℕ) :
    (exitCodeOf (importerOutcome C fe rows k us pw R u st0) = 2 ↔
      (fe = false ∨ (fe = true ∧ (loadBooks C R u st0 rows).1 ≠ [] ∧ k = "" ∧
        ¬(us ≠ "" ∧ pw ≠ "")))) ∧
    (exitCodeOf (importerOutcome C fe rows k us pw R u st0) = 0 ↔
      (importerOutcome C fe rows k us pw R u st0 = .ran ∨
       importerOutcome C fe rows k us pw R u st0 = .noValidBooks)) := by
  by_cases hfe : fe = true
  · by_cases hload : (loadBooks C R u st0 rows).1 = []
    · simp [importerOutcome, exitCodeOf, hfe, hload]
    · by_cases hk : k = ""
      · by_cases hup : us ≠ "" ∧ pw ≠ ""
        · simp [importerOutcome, exitCodeOf, hfe, hload, hk, hup]
        · simp [importerOutcome, exitCodeOf, hfe, hload, hk, hup]
      · simp [importerOutcome, exitCodeOf, hfe, hload, hk]
  · have hfe' : fe = false := by
      cases fe
      · rfl
      · exact absurd rfl hfe
    simp [importerOutcome, exitCodeOf, hfe']

/-! ## Claim C10: generator with N = 0 -/

/-- C10: a generator run with argument "0" writes a file consisting of
exactly the fixed 8-column header row and nothing else, for every oracle
and oracle state. -/
theorem generator_zero_header_only (o : GenOracle) (st : ℕ) :
    generatorRun o st ["0"] = [headerRow] ∧ headerRow.length = 8 :=
  ⟨rfl, rfl⟩

/-! ## Claim C8: interrupt responsiveness and final statistics -/

/-- The inter-batch wait never sleeps more than `interval` seconds. -/
theorem waitLoop_le (flag : ℕ → Bool) (k : ℕ) :
    ∀ t0, waitLoop flag k t0 ≤ t0 + k := by
  induction k with
  | zero => intro t0; simp [waitLoop]
  | succ k ih =>
    intro t0
    simp only [waitLoop]
    split_ifs with h
    · omega
    · have h2 := ih (t0 + 1); omega

/-- Since the flag is checked before every one-second sleep, the wait is
left no later than the first second at which the flag is visible. -/
theorem waitLoop_obs (flag : ℕ → Bool) (hm : FlagMono flag) (ts : ℕ)
    (hts : flag ts = true) (k : ℕ) : ∀ t0, waitLoop flag k t0 ≤ max t0 ts := by
  induction k with
  | zero => intro t0; exact le_max_left t0 ts
  | succ k ih =>
    intro t0
    simp only [waitLoop]
    split_ifs with h
    · exact le_max_left t0 ts
    · have hlt : t0 < ts := by
        by_contra hge
        push_neg at hge
        exact h (hm ts t0 hge hts)
      have h2 := ih (t0 + 1)
      have hmax : max (t0 + 1) ts = ts := max_eq_right (by omega)
      rw [hmax] at h2
      exact le_trans h2 (le_max_right t0 ts)

/-- Every event the main loop itself emits is a post, made at a moment at
which the shutdown flag had just been checked and found unset. -/
theorem runLoop_events (flag : ℕ → Bool) (outcomes : ℕ → PostOutcome)
    (books : List Book) (b interval maxB : ℕ) :
    ∀ (fuel cur t : ℕ) (s : Stats) (e : Event),
      e ∈ (runLoop flag outcomes books b interval maxB fuel cur s t).2 →
      ∃ tp n batch, e = Event.posted tp n batch ∧ flag tp = false := by
  intro fuel
  induction fuel with
  | zero => intro cur t s e he; simp [runLoop] at he
  | succ fuel ih =>
    intro cur t s e he
    by_cases hf : flag t
    · simp [runLoop, hf] at he
    · simp only [runLoop, hf, Bool.false_eq_true, if_false] at he
      rw [Bool.not_eq_true] at hf
      split at he
      · simp at he
        exact ⟨t, s.batches_sent + 1, (iterStep books b cur).1, he, hf⟩
      · simp only [List.mem_cons] at he
        rcases he with he | he
        · exact ⟨t, s.batches_sent + 1, (iterStep books b cur).1, he, hf⟩
        · exact ih _ _ _ e he

/-- C8: the shutdown flag set at time `ts` is observed by the wait loop
within one check interval (and the wait never exceeds the configured
interval); every batch is posted at a time at which the flag was checked
and unset — so no batch is posted after the flag is observed; and the
final cumulative statistics are printed exactly once per run. -/
theorem interrupt_handling (flag : ℕ → Bool) (outcomes : ℕ → PostOutcome)
    (books : List Book) (b interval maxB fuel t : ℕ) (hm : FlagMono flag) :
    (∀ t0 ts, flag ts = true → waitLoop flag interval t0 ≤ max t0 ts) ∧
    (∀ t0, waitLoop flag interval t0 ≤ t0 + interval) ∧
    (∀ tp n batch, Event.posted tp n batch ∈
      (runImporter flag outcomes books b interval maxB fuel t).2 → flag tp = false) ∧
    (runImporter flag outcomes books b interval maxB fuel t).2.count
      Event.statsPrinted = 1 := by
  refine ⟨fun t0 ts hts => waitLoop_obs flag hm ts hts interval t0,
    fun t0 => waitLoop_le flag interval t0, ?_, ?_⟩
  · intro tp n batch hmem
    simp only [runImporter, List.mem_append] at hmem
    rcases hmem with hmem | hmem
    · obtain ⟨tp', n', batch', he, hfl⟩ := runLoop_events flag outcomes books b
        interval maxB fuel 0 t ⟨0, 0, 0, 0⟩ _ hmem
      obtain ⟨rfl, -, -⟩ : tp = tp' ∧ n = n' ∧ batch = batch' := by
        simpa [Event.posted.injEq] using he
      exact hfl
    · simp at hmem
  · simp only [runImporter, List.count_append]
    have hz : (runLoop flag outcomes books b interval maxB fuel 0 ⟨0, 0, 0, 0⟩ t).2.count
        Event.statsPrinted = 0 := by
      rw [List.count_eq_zero]
      intro hmem
      obtain ⟨tp, n, batch, he, -⟩ := runLoop_events flag outcomes books b
        interval maxB fuel 0 t ⟨0, 0, 0, 0⟩ _ hmem
      cases he
    rw [hz]
    rfl

/-- Witness for C8: a flag that goes up at time 3, a two-second interval. -/
theorem interrupt_handling_witness :
    (runImporter (fun tt => decide (3 ≤ tt)) (fun _ => PostOutcome.netError)
      [default] 1 2 1 3 0).2.count Event.statsPrinted = 1 ∧
    waitLoop (fun tt => decide (3 ≤ tt)) 2 0 ≤ max 0 3 := by
  have h := interrupt_handling (fun tt => decide (3 ≤ tt))
    (fun _ => PostOutcome.netError) [default] 1 2 1 3 0
    (by intro s t hst hs; simp at hs ⊢; omega)
  exact ⟨h.2.2.2, h.1 0 3 (by decide)⟩

/-! ## Claim C2: the generator's header row parses as a record -/

theorem mem_dropWhile_of_mem (p : Char → Bool) :
    ∀ (l : List Char) (c : Char), c ∈ l → p c = false → c ∈ l.dropWhile p := by
  intro l
  induction l with
  | nil => intro c hc _; simp at hc
  | cons h t ih =>
    intro c hc hp
    rw [List.dropWhile_cons]
    rcases List.mem_cons.mp hc with rfl | hct
    · rw [hp]; simp
    · split_ifs with hh
      · exact ih c hct hp
      · exact List.mem_cons_of_mem h hct

theorem trimChars_ne_nil (l : List Char) (c : Char) (hc : c ∈ l)
    (hw : ws c = false) : trimChars l ≠ [] := by
  have h1 : c ∈ l.dropWhile ws := mem_dropWhile_of_mem ws l c hc hw
  have h2 : c ∈ (l.dropWhile ws).reverse := List.mem_reverse.mpr h1
  have h3 : c ∈ (l.dropWhile ws).reverse.dropWhile ws :=
    mem_dropWhile_of_mem ws _ c h2 hw
  have h4 : c ∈ trimChars l := List.mem_reverse.mpr h3
  exact List.ne_nil_of_mem h4

theorem pyStrip_ne_empty (s : String) (c : Char) (hc : c ∈ s.data)
    (hw : ws c = false) : pyStrip s ≠ "" := by
  intro he
  have hd : trimChars s.data = [] := congrArg String.data he
  exact trimChars_ne_nil s.data c hc hw hd

theorem mem_data_append_left {c : Char} {a b : String} (h : c ∈ a.data) :
    c ∈ (a ++ b).data := by
  rw [String.data_append]; exact List.mem_append_left _ h

theorem mem_data_append_right {c : Char} {a b : String} (h : c ∈ b.data) :
    c ∈ (a ++ b).data := by
  rw [String.data_append]; exact List.mem_append_right _ h

/-- Every title template contains a fixed non-blank literal character,
whatever the substitutions are. -/
theorem applyTemplate_has_char (k : ℕ) (s : TitleSubs) :
    ∃ c, c ∈ (applyTemplate k s).data ∧ ws c = false := by
  have h10 : k % 10 < 10 := Nat.mod_lt _ (by norm_num)
  simp only [applyTemplate]
  generalize hm : k % 10 = m at h10 ⊢
  interval_cases m
  · exact ⟨'T', mem_data_append_left (mem_data_append_left
      (mem_data_append_left (by decide))), by decide⟩
  · exact ⟨'o', mem_data_append_left (mem_data_append_right (by decide)), by decide⟩
  · exact ⟨'A', mem_data_append_left (by decide), by decide⟩
  · exact ⟨'C', mem_data_append_left (by decide), by decide⟩
  · exact ⟨'B', mem_data_append_left (mem_data_append_left
      (mem_data_append_left (by decide))), by decide⟩
  · exact ⟨'A', mem_data_append_left (by decide), by decide⟩
  · exact ⟨'V', mem_data_append_left (by decide), by decide⟩
  · exact ⟨'S', mem_data_append_left (by decide), by decide⟩
  · exact ⟨'J', mem_data_append_left (by decide), by decide⟩
  · exact ⟨'L', mem_data_append_left (by decide), by decide⟩

theorem applyTemplate_strip_ne (k : ℕ) (s : TitleSubs) :
    pyStrip (applyTemplate k s) ≠ "" := by
  obtain ⟨c, hc, hw⟩ := applyTemplate_has_char k s
  exact pyStrip_ne_empty _ c hc hw

theorem digitChar_not_ws (d : ℕ) : ws (digitChar d) = false := by
  have h : d % 10 < 10 := Nat.mod_lt _ (by norm_num)
  unfold digitChar
  generalize hm : d % 10 = m at h ⊢
  interval_cases m <;> decide

/-- A generated ISBN never strips to the empty string: it is a non-empty
string of digits, possibly preceded by "978" or "979". -/
theorem random_isbn_strip_ne (o : GenOracle) (st : ℕ) :
    pyStrip (random_isbn o st).1 ≠ "" := by
  by_cases h : (o.pickBool st).1
  · simp only [random_isbn, h, if_true]
    by_cases h2 : (o.pickNat (o.pickBool st).2).1 % 2 = 0
    · rw [if_pos h2]
      exact pyStrip_ne_empty _ '9' (mem_data_append_left (by decide)) (by decide)
    · rw [if_neg h2]
      exact pyStrip_ne_empty _ '9' (mem_data_append_left (by decide)) (by decide)
  · simp only [random_isbn, h, Bool.false_eq_true, if_false]
    exact pyStrip_ne_empty _ (digitChar (o.pickNat (o.pickBool st).2).1)
      (List.mem_cons_self _ _) (digitChar_not_ws _)

/-- A generated title never strips to the empty string. -/
theorem random_title_strip_ne (o : GenOracle) (st : ℕ) :
    pyStrip (random_title o st).1 ≠ "" :=
  applyTemplate_strip_ne _ _

/-- Every generated book has a non-blank ISBN and title. -/
theorem genBooks_fields (o : GenOracle) :
    ∀ (n st : ℕ) (g : GenBook), g ∈ (genBooks o n st).1 →
      pyStrip g.isbn ≠ "" ∧ pyStrip g.title ≠ "" := by
  intro n
  induction n with
  | zero => intro st g hg; simp [genBooks] at hg
  | succ n ih =>
    intro st g hg
    simp only [genBooks, List.mem_cons] at hg
    rcases hg with rfl | hg
    · exact ⟨random_isbn_strip_ne o st, random_title_strip_ne o _⟩
    · exact ih _ g hg

/-- On ASCII, a non-digit code point is isdigit-false for every
character-class assignment. -/
theorem CharClasses.isdigit_false_of_ascii (C : CharClasses) (c : Char)
    (hc : c.toNat < 128) (h : ¬(48 ≤ c.toNat ∧ c.toNat ≤ 57)) :
    C.isdigit c = false := by
  cases hb : C.isdigit c
  · rfl
  · exact absurd ((C.ascii_isdigit c hc).mp hb) h

/-- An ASCII decimal digit is isdigit-true for every assignment. -/
theorem CharClasses.isdigit_true_of_ascii (C : CharClasses) (c : Char)
    (h : 48 ≤ c.toNat ∧ c.toNat ≤ 57) : C.isdigit c = true :=
  (C.ascii_isdigit c (by omega)).mpr h

/-- An ASCII decimal digit carries its value for every assignment. -/
theorem CharClasses.decVal_of_ascii (C : CharClasses) (c : Char)
    (h : 48 ≤ c.toNat ∧ c.toNat ≤ 57) : C.decVal c = some (c.toNat - 48) := by
  rw [C.ascii_decVal c (by omega), if_pos h]

/-- A string holding an isdigit-false character fails `isdigit()`. -/
theorem pyIsDigit_false_of_mem (C : CharClasses) (s : String) (c : Char)
    (hc : c ∈ s.data) (h : C.isdigit c = false) : pyIsDigit C s = false := by
  unfold pyIsDigit
  cases hall : s.data.all C.isdigit
  · simp
  · exact absurd (List.all_eq_true.mp hall c hc) (by simp [h])

/-- Every character `Nat.toDigitsCore` accumulates in base 10 is an
ASCII decimal digit (given the accumulator already is). -/
theorem toDigitsCore_digits :
    ∀ (fuel n : ℕ) (ds : List Char),
      (∀ c ∈ ds, 48 ≤ c.toNat ∧ c.toNat ≤ 57) →
      ∀ c ∈ Nat.toDigitsCore 10 fuel n ds, 48 ≤ c.toNat ∧ c.toNat ≤ 57 := by
  intro fuel
  induction fuel with
  | zero => intro n ds hds c hc; exact hds c hc
  | succ fuel ih =>
    intro n ds hds c hc
    have hdigit : 48 ≤ (Nat.digitChar (n % 10)).toNat ∧
        (Nat.digitChar (n % 10)).toNat ≤ 57 := by
      have h10 : n % 10 < 10 := Nat.mod_lt _ (by norm_num)
      generalize hm : n % 10 = m at h10 ⊢
      interval_cases m <;> decide
    simp only [Nat.toDigitsCore] at hc
    by_cases hz : n / 10 = 0
    · rw [if_pos hz] at hc
      rcases List.mem_cons.mp hc with rfl | hcc
      · exact hdigit
      · exact hds c hcc
    · rw [if_neg hz] at hc
      refine ih (n / 10) (Nat.digitChar (n % 10) :: ds) ?_ c hc
      intro c' hc'
      rcases List.mem_cons.mp hc' with rfl | h'
      · exact hdigit
      · exact hds c' h'

theorem toDigitsCore_ne_nil :
    ∀ (fuel n : ℕ) (ds : List Char), ds ≠ [] →
      Nat.toDigitsCore 10 fuel n ds ≠ [] := by
  intro fuel
  induction fuel with
  | zero => intro n ds h; exact h
  | succ fuel ih =>
    intro n ds h
    simp only [Nat.toDigitsCore]
    by_cases hz : n / 10 = 0
    · rw [if_pos hz]; simp
    · rw [if_neg hz]; exact ih (n / 10) _ (by simp)

/-- `str(n)` (the year cell `csv.DictWriter` writes) is a non-empty
string of ASCII decimal digits. -/
theorem repr_digits (n : ℕ) :
    ∀ c ∈ (toString n).data, 48 ≤ c.toNat ∧ c.toNat ≤ 57 := by
  intro c hc
  exact toDigitsCore_digits (n + 1) n [] (by simp) c hc

theorem repr_ne_nil (n : ℕ) : (toString n).data ≠ [] := by
  show Nat.toDigitsCore 10 (n + 1) n [] ≠ []
  simp only [Nat.toDigitsCore]
  by_cases hz : n / 10 = 0
  · rw [if_pos hz]; simp
  · rw [if_neg hz]; exact toDigitsCore_ne_nil n (n / 10) _ (by simp)

/-- ASCII digits are not Python whitespace. -/
theorem ws_false_of_digit (c : Char) (h : 48 ≤ c.toNat ∧ c.toNat ≤ 57) :
    ws c = false := by
  unfold ws
  exact decide_eq_false (by omega)

theorem dropWhile_eq_self_of_all (p : Char → Bool) (l : List Char)
    (h : ∀ c ∈ l, p c = false) : l.dropWhile p = l := by
  cases l with
  | nil => rfl
  | cons a t =>
    rw [List.dropWhile_cons, h a (List.mem_cons_self a t)]
    simp

theorem trimChars_eq_self (l : List Char) (h : ∀ c ∈ l, ws c = false) :
    trimChars l = l := by
  unfold trimChars
  rw [dropWhile_eq_self_of_all ws l h,
    dropWhile_eq_self_of_all ws l.reverse
      (fun c hc => h c (List.mem_reverse.mp hc))]
  exact List.reverse_reverse l

/-- A written year cell is strip-invariant. -/
theorem pyStrip_repr (y : ℕ) : pyStrip (toString y) = toString y := by
  unfold pyStrip
  rw [trimChars_eq_self (toString y).data
    (fun c hc => ws_false_of_digit c (repr_digits y c hc))]

/-- A written year cell passes `isdigit()` for every class assignment. -/
theorem pyIsDigit_repr (C : CharClasses) (y : ℕ) :
    pyIsDigit C (toString y) = true := by
  unfold pyIsDigit
  rw [Bool.and_eq_true]
  constructor
  · rcases hd : (toString y).data with _ | ⟨a, t⟩
    · exact absurd hd (repr_ne_nil y)
    · rfl
  · rw [List.all_eq_true]
    intro c hc
    exact C.isdigit_true_of_ascii c (repr_digits y c hc)

/-- `int()` succeeds on a written year cell for every class assignment:
all its characters are ASCII digits, which always carry decimal values. -/
theorem pyIntDigits_repr_ne_none (C : CharClasses) (y : ℕ) :
    pyIntDigits C (toString y) ≠ none := by
  unfold pyIntDigits
  rw [if_pos]
  · simp
  · rw [List.all_eq_true]
    intro c hc
    rw [C.decVal_of_ascii c (repr_digits y c hc)]
    rfl

/-- The CSV row written for a generated book is parsed back into a record
by the importer: it has 8 cells, non-blank ISBN and title, and its year
cell is an ASCII digit string, so `int()` never raises on it. -/
theorem parseRow_toRow (C : CharClasses) (R : RandomLib) (u : String → String)
    (st : ℕ) (g : GenBook) (hi : pyStrip g.isbn ≠ "")
    (ht : pyStrip g.title ≠ "") :
    (parseRow C R u st (toRow g)).1 = some (bookOfRow C R u (toRow g)) := by
  rw [parseRow_of_valid C R u st (toRow g) (by simp [toRow]) ?_ hi ht]
  intro hcon
  have h2 : pyIntDigits C (pyStrip (toString g.year)) = none := hcon.2
  rw [pyStrip_repr g.year] at h2
  exact pyIntDigits_repr_ne_none C g.year h2

theorem genBooks_length (o : GenOracle) :
    ∀ (n st : ℕ), (genBooks o n st).1.length = n := by
  intro n
  induction n with
  | zero => intro st; rfl
  | succ n ih => intro st; simp [genBooks, ih]

/-- Loading the rows written for generated books retains one record per
book. -/
theorem loadRows_map_toRow_length (C : CharClasses) (R : RandomLib)
    (u : String → String) :
    ∀ (gbs : List GenBook) (i st : ℕ),
      (∀ g ∈ gbs, pyStrip g.isbn ≠ "" ∧ pyStrip g.title ≠ "") →
      (loadRows C R u (gbs.map toRow) i st).1.length = gbs.length := by
  intro gbs
  induction gbs with
  | nil => intro i st _; simp [loadRows]
  | cons g rest ih =>
    intro i st h
    have hg := h g (List.mem_cons_self g rest)
    rw [List.map_cons, loadRows_cons_some C R u (toRow g) (rest.map toRow) i st _
      (parseRow_toRow C R u st g hg.1 hg.2)]
    simp [ih (i + 1) _ (fun g' hg' => h g' (List.mem_cons_of_mem g hg'))]

/-- The header row parses as a record whatever the class assignment: its
year cell "Year-Of-Publication" fails `isdigit()` (it contains the
ASCII non-digit 'Y'), so `int` is never called on it. -/
theorem parseRow_headerRow (C : CharClasses) (R : RandomLib)
    (u : String → String) (st : ℕ) :
    (parseRow C R u st headerRow).1 = some (bookOfRow C R u headerRow) := by
  have hY : pyIsDigit C (pyStrip (headerRow.getD 3 "")) = false :=
    pyIsDigit_false_of_mem C _ 'Y' (by decide)
      (C.isdigit_false_of_ascii 'Y' (by decide) (by decide))
  rw [parseRow_of_valid C R u st headerRow (by decide) ?_ (by decide) (by decide)]
  intro hcon
  rw [hY] at hcon
  cases hcon.1

/-- Loading a generated file of `n` records retains `n + 1` records: the
header row parses as a record too. -/
theorem loadBooks_generated_length (C : CharClasses) (o : GenOracle)
    (n st st0 : ℕ) (R : RandomLib) (u : String → String) :
    (loadBooks C R u st0 (generatorFile (genBooks o n st).1)).1.length = n + 1 := by
  have hload := loadRows_cons_some C R u headerRow ((genBooks o n st).1.map toRow)
    1 st0 _ (parseRow_headerRow C R u st0)
  show (loadRows C R u (headerRow :: (genBooks o n st).1.map toRow) 1 st0).1.length
    = n + 1
  rw [hload]
  simp only [List.length_cons]
  rw [loadRows_map_toRow_length C R u (genBooks o n st).1 2
    (parseRow C R u st0 headerRow).2 (fun g hg => genBooks_fields o n st g hg)]
  rw [genBooks_length o n st]

/-- C2: the generator writes a header row, the importer's header-less
positional parser accepts it as a record (8 columns, non-blank "ISBN" and
"Book-Title"), so loading a generated file of `n` records parses `n + 1`
records, the first of which has isbn "ISBN" and title "Book-Title". -/
theorem header_row_parsed (C : CharClasses) (o : GenOracle) (n st st0 : ℕ)
    (R : RandomLib) (u : String → String) :
    headerRow.length = 8 ∧ pyStrip "ISBN" ≠ "" ∧ pyStrip "Book-Title" ≠ "" ∧
    (loadBooks C R u st0 (generatorFile (genBooks o n st).1)).1.length = n + 1 ∧
    ((loadBooks C R u st0 (generatorFile (genBooks o n st).1)).1.headD
      default).isbn = "ISBN" ∧
    ((loadBooks C R u st0 (generatorFile (genBooks o n st).1)).1.headD
      default).title = "Book-Title" := by
  have hload := loadRows_cons_some C R u headerRow ((genBooks o n st).1.map toRow)
    1 st0 _ (parseRow_headerRow C R u st0)
  refine ⟨rfl, by decide, by decide, loadBooks_generated_length C o n st st0 R u,
    ?_, ?_⟩
  · show ((loadRows C R u (headerRow :: (genBooks o n st).1.map toRow)
      1 st0).1.headD default).isbn = "ISBN"
    rw [hload]
    rfl
  · show ((loadRows C R u (headerRow :: (genBooks o n st).1.map toRow)
      1 st0).1.headD default).title = "Book-Title"
    rw [hload]
    rfl

/-! ## Claim C1: the generator-then-importer round trip -/

/-- A successful POST (status below 400) tallies the per-item outcomes of
the response body. -/
theorem post_batch_ok (s : Stats) (status : ℕ) (hs : status < 400)
    (body : List String) :
    post_batch s (.httpResp status body) =
      ({ s with
          items_imported :=
            s.items_imported + (body.filter (fun x => x = "imported")).length,
          items_failed :=
            s.items_failed + (body.filter (fun x => x = "failed")).length },
       true) := by
  simp only [post_batch]
  rw [if_neg (by omega)]

/-- Running `k` further batches (with `k` reaching exactly the batch
ceiling) against an endpoint that always answers status 200 with the same
body adds `k` times the body's "imported" count to the success counter. -/
theorem runLoop_const_ok (body : List String) (books : List Book)
    (b interval maxB : ℕ) :
    ∀ (fuel k cur t : ℕ) (s : Stats), 1 ≤ k → k ≤ fuel →
      s.batches_sent + k = maxB →
      (runLoop (fun _ => false) (fun _ => PostOutcome.httpResp 200 body) books
          b interval maxB fuel cur s t).1.batches_sent = maxB ∧
      (runLoop (fun _ => false) (fun _ => PostOutcome.httpResp 200 body) books
          b interval maxB fuel cur s t).1.items_imported =
        s.items_imported + k * (body.filter (fun x => x = "imported")).length := by
  intro fuel
  induction fuel with
  | zero => intro k cur t s hk hkf _; exfalso; omega
  | succ fuel ih =>
    intro k cur t s hk hkf hsum
    simp only [runLoop, Bool.false_eq_true, if_false]
    rw [post_batch_ok _ 200 (by norm_num) body]
    by_cases hk1 : k = 1
    · subst hk1
      rw [if_pos (by simp; omega)]
      constructor
      · simp; omega
      · simp
    · rw [if_neg (by simp; omega)]
      obtain ⟨h1, h2⟩ := ih (k - 1) (iterStep books b cur).2
        (waitLoop (fun _ => false) interval t)
        { s with
          batches_sent := s.batches_sent + 1,
          items_imported :=
            s.items_imported + (body.filter (fun x => x = "imported")).length,
          items_failed :=
            s.items_failed + (body.filter (fun x => x = "failed")).length }
        (by omega) (by omega) (by simp; omega)
      refine ⟨h1, ?_⟩
      rw [h2]
      show s.items_imported + (body.filter (fun x => x = "imported")).length +
          (k - 1) * (body.filter (fun x => x = "imported")).length =
        s.items_imported + k * (body.filter (fun x => x = "imported")).length
      obtain ⟨k', rfl⟩ : ∃ k', k = k' + 1 := ⟨k - 1, by omega⟩
      simp only [Nat.add_sub_cancel]
      ring

/-- C1 counterexample: the round trip exactly as the claim describes it,
at the importer's default batch size 3 — generate 10 records, import them
against a mock endpoint answering that every posted item was "imported" —
after ceil(10/3) = 4 batches the cumulative success counter is 12, not
10, because every wraparound batch has exactly 3 items. -/
theorem round_trip_claim_cex :
    (10 + 3 - 1) / 3 = 4 ∧
    (runImporter (fun _ => false)
      (fun _ => PostOutcome.httpResp 200 (List.replicate 3 "imported"))
      (loadBooks demoClasses simpleR id 0 (generatorFile (genBooks demoOracle 10 0).1)).1
      3 10 4 10 0).1.batches_sent = 4 ∧
    (runImporter (fun _ => false)
      (fun _ => PostOutcome.httpResp 200 (List.replicate 3 "imported"))
      (loadBooks demoClasses simpleR id 0 (generatorFile (genBooks demoOracle 10 0).1)).1
      3 10 4 10 0).1.items_imported = 12 ∧
    ¬(runImporter (fun _ => false)
      (fun _ => PostOutcome.httpResp 200 (List.replicate 3 "imported"))
      (loadBooks demoClasses simpleR id 0 (generatorFile (genBooks demoOracle 10 0).1)).1
      3 10 4 10 0).1.items_imported = 10 := by
  refine ⟨by norm_num, ?_, ?_, ?_⟩ <;> decide

/-- C1 amended: the round trip yields exactly
`batch_size * ceil(10 / batch_size)` cumulative successes after
`ceil(10 / batch_size)` batches (which equals 10 exactly when the batch
size divides 10), because every batch has exactly `batch_size` items
under wraparound; the parsed set moreover has 11 records (the header row
included), not 10. -/
theorem round_trip_amended (C : CharClasses) (o : GenOracle) (st st0 : ℕ) (R : RandomLib)
    (u : String → String) (b interval fuel : ℕ) (hb : 1 ≤ b)
    (hfuel : (10 + b - 1) / b ≤ fuel) :
    (loadBooks C R u st0 (generatorFile (genBooks o 10 st).1)).1.length = 11 ∧
    (runImporter (fun _ => false)
      (fun _ => PostOutcome.httpResp 200 (List.replicate b "imported"))
      (loadBooks C R u st0 (generatorFile (genBooks o 10 st).1)).1
      b interval ((10 + b - 1) / b) fuel 0).1.batches_sent = (10 + b - 1) / b ∧
    (runImporter (fun _ => false)
      (fun _ => PostOutcome.httpResp 200 (List.replicate b "imported"))
      (loadBooks C R u st0 (generatorFile (genBooks o 10 st).1)).1
      b interval ((10 + b - 1) / b) fuel 0).1.items_imported =
      b * ((10 + b - 1) / b) := by
  have hk : 1 ≤ (10 + b - 1) / b := by
    rw [Nat.le_div_iff_mul_le (by omega)]
    omega
  have hcnt : ((List.replicate b "imported").filter
      (fun x => x = "imported")).length = b := by
    rw [List.filter_replicate]
    simp
  obtain ⟨h1, h2⟩ := runLoop_const_ok (List.replicate b "imported")
    (loadBooks C R u st0 (generatorFile (genBooks o 10 st).1)).1
    b interval ((10 + b - 1) / b) fuel ((10 + b - 1) / b) 0 0 ⟨0, 0, 0, 0⟩
    hk hfuel (by simp)
  refine ⟨loadBooks_generated_length C o 10 st st0 R u, h1, ?_⟩
  rw [show (runImporter (fun _ => false)
      (fun _ => PostOutcome.httpResp 200 (List.replicate b "imported"))
      (loadBooks C R u st0 (generatorFile (genBooks o 10 st).1)).1
      b interval ((10 + b - 1) / b) fuel 0).1 =
    (runLoop (fun _ => false)
      (fun _ => PostOutcome.httpResp 200 (List.replicate b "imported"))
      (loadBooks C R u st0 (generatorFile (genBooks o 10 st).1)).1
      b interval ((10 + b - 1) / b) fuel 0 ⟨0, 0, 0, 0⟩ 0).1 from rfl]
  rw [h2, hcnt]
  simp [Nat.mul_comm]

/-- Witness for the amended C1 at batch size 2: ceil(10/2) = 5 batches,
2 * 5 = 10 successes. -/
theorem round_trip_amended_witness :
    (runImporter (fun _ => false)
      (fun _ => PostOutcome.httpResp 200 (List.replicate 2 "imported"))
      (loadBooks demoClasses simpleR id 0 (generatorFile (genBooks demoOracle 10 0).1)).1
      2 0 ((10 + 2 - 1) / 2) 5 0).1.items_imported = 2 * ((10 + 2 - 1) / 2) :=
  (round_trip_amended demoClasses demoOracle 0 0 simpleR id 2 0 5 (by norm_num)
    (by norm_num)).2.2

end Bookstore
